import Mathlib

/-!
Verification of the credibility-analysis workflow of the resume-trust-score
application: the text extractor, the CSV field escaper, the score-band
mapping, the hardened `analyze-resume` edge handler, and the batch
orchestrator (`handleAnalyzeAll` / `analyzeFile`).

Strings are modelled at the character-list level; JavaScript string
operations (`trim`, `substring`, regex replacement and scanning) are
embedded as explicit recursive functions over `List Char`.
-/

set_option maxRecDepth 4096

/-! ## Character classes used by the JavaScript string operations -/

/-- Characters kept by the cleanup regex `[^\x20-\x7E\n\r\t]` in
`extractTextFromFile`: printable ASCII plus newline, carriage return, tab. -/
def isKeepChar (c : Char) : Bool :=
  (0x20 ≤ c.toNat && c.toNat ≤ 0x7E) || c = '\n' || c = '\r' || c = '\t'

/-- ASCII whitespace as matched by the JavaScript `\s` class (restricted to
the ASCII range: space, tab, newline, carriage return, vertical tab, form
feed). -/
def isJsWs (c : Char) : Bool :=
  c = ' ' || c = '\t' || c = '\n' || c = '\r' || c = '\x0b' || c = '\x0c'

/-- ASCII alphabetic characters, the `[a-zA-Z]` regex class. -/
def isAsciiLetter (c : Char) : Bool :=
  ('a' ≤ c && c ≤ 'z') || ('A' ≤ c && c ≤ 'Z')

/-! ## JavaScript string primitives over `List Char` -/

/-- `String.prototype.trim`: drop leading and trailing whitespace. -/
def trimChars (l : List Char) : List Char :=
  ((l.dropWhile isJsWs).reverse.dropWhile isJsWs).reverse

/-- JavaScript `s.trim()`. -/
def jsTrim (s : String) : String :=
  String.mk (trimChars s.data)

/-- JavaScript `s.substring(0, n)`. -/
def strTake (n : Nat) (s : String) : String :=
  String.mk (s.data.take n)

/-- One pass of `replace(/\s+/g, " ")`: every maximal run of whitespace
characters becomes a single space. -/
def collapseWsRuns : List Char → List Char
  | [] => []
  | [c] => if isJsWs c then [' '] else [c]
  | c₁ :: c₂ :: rest =>
    if isJsWs c₁ && isJsWs c₂ then collapseWsRuns (c₂ :: rest)
    else (if isJsWs c₁ then ' ' else c₁) :: collapseWsRuns (c₂ :: rest)

/-- One-pass scanner equivalent to `rawText.match(/\(([^)]+)\)/g)` followed
by `slice(1, -1)` on each match: when the second argument is `some acc`,
the scanner sits inside an open parenthesized group whose content so far is
`acc` reversed; a closing parenthesis emits the (nonempty) content and
resumes outside. -/
def parenScanAux : List Char → Option (List Char) → List String
  | [], _ => []
  | c :: rest, none =>
    if c = '(' then parenScanAux rest (some []) else parenScanAux rest none
  | c :: rest, some acc =>
    if c = ')' then
      if acc.isEmpty then parenScanAux rest none
      else String.mk acc.reverse :: parenScanAux rest none
    else parenScanAux rest (some (c :: acc))

/-- The contents of every parenthesized group holding at least one
character other than a closing parenthesis, in scan order. -/
def parenScan (l : List Char) : List String :=
  parenScanAux l none

/-! ## Text Extractor (`extractTextFromFile` in `AnalysisHistory.tsx` /
`ResumeUpload.tsx`) -/

inductive FType
  | textPlain
  | pdf
  | docx
deriving DecidableEq, Repr

/-- An uploaded file: its declared MIME type and the text obtained by
decoding its bytes with the non-throwing UTF-8 decoder
(`TextDecoder("utf-8", \x7b fatal: false \x7d)`); `file.text()` yields the
same replacement-tolerant decoding. -/
structure RFile where
  ftype : FType
  content : String
deriving DecidableEq, Repr

def sentinelText : String := "Unable to extract text content from this file format."

/-- The cleanup pipeline applied to non-plain-text files: replace every
character outside printable-ASCII-plus-whitespace with a space, collapse
whitespace runs, trim. -/
def cleanedText (f : RFile) : String :=
  String.mk (trimChars (collapseWsRuns
    (f.content.data.map (fun c => if isKeepChar c then c else ' '))))

/-- The text before the final empty check: the cleaned text, except that a
PDF whose cleaned text is shorter than 100 characters is re-scanned for
parenthesized substrings, which replace the text when any are found. -/
def finalText (f : RFile) : String :=
  let t := cleanedText f
  if t.length < 100 && f.ftype = FType.pdf then
    match parenScan f.content.data with
    | [] => t
    | ms => String.intercalate " " ms
  else t

/-- `extractTextFromFile`: plain text passes through unchanged; any other
type goes through the cleanup pipeline, and an empty result is replaced by
the fixed sentinel (`return text || "Unable to extract …"`). The Lean
function is total by construction, matching the source's no-throw contract. -/
def extractTextFromFile (f : RFile) : String :=
  if f.ftype = FType.textPlain then f.content
  else if finalText f = "" then sentinelText else finalText f

/-! ## CSV field escaping (`escapeCSV` in the export module) -/

/-- `replace(/"/g, '""')`: double every double-quote character. -/
def dqChars : List Char → List Char
  | [] => []
  | c :: t => if c = '"' then '"' :: '"' :: dqChars t else c :: dqChars t

def doubleQuotes (s : String) : String := String.mk (dqChars s.data)

/-- The quoting condition of `escapeCSV`:
`str.includes(',') || str.includes('\n') || str.includes('"')`. -/
def needsQuoting (s : String) : Bool :=
  s.data.contains ',' || s.data.contains '\n' || s.data.contains '"'

/-- `escapeCSV`: wrap in double quotes, doubling embedded quotes, exactly
when the field contains a comma, a newline, or a double quote. -/
def escapeCSV (s : String) : String :=
  if needsQuoting s then "\"" ++ doubleQuotes s ++ "\"" else s

/-- Collapse each doubled double-quote back to a single one (left-to-right). -/
def collapseDoubledQuotes : List Char → List Char
  | [] => []
  | [c] => [c]
  | c₁ :: c₂ :: rest =>
    if c₁ = '"' && c₂ = '"' then '"' :: collapseDoubledQuotes rest
    else c₁ :: collapseDoubledQuotes (c₂ :: rest)

/-- Modelled from the spec: standard CSV field unquoting (the re-parse
direction of the round-trip, which the repository itself does not
implement): a field wrapped in double quotes is stripped of them and every
doubled quote inside collapses to one; any other field is unchanged. -/
def csvUnquote (s : String) : String :=
  let l := s.data
  if 2 ≤ l.length ∧ l.head? = some '"' ∧ l.getLast? = some '"' then
    String.mk (collapseDoubledQuotes (l.drop 1).dropLast)
  else s

/-! ## Score-band mapping (`getScoreColor`) -/

/-- `getScoreColor` as defined in the `AnalysisResult` component. -/
def getScoreColor (score : Int) : String :=
  if score ≥ 80 then "text-green-600"
  else if score ≥ 50 then "text-yellow-600"
  else "text-red-600"

/-- `getScoreColor` as defined in the `AnalysisHistory` component (verbatim
duplicate of the `AnalysisResult` one). -/
def getScoreColorHistory (score : Int) : String :=
  if score ≥ 80 then "text-green-600"
  else if score ≥ 50 then "text-yellow-600"
  else "text-red-600"

/-- Modelled from the spec: the fixed score-band thresholds (≥80 low risk,
50–79 medium, <50 high). -/
def specScoreBand (s : Int) : String :=
  if s ≥ 80 then "low"
  else if 50 ≤ s ∧ s ≤ 79 then "medium"
  else "high"

/-! ## The hardened `analyze-resume` edge handler -/

/-- The generic, non-leaking error messages of the hardened handler. -/
def MSG_INVALID_INPUT : String := "Invalid or insufficient resume content provided"

def MSG_RATE_LIMITED : String := "Too many requests. Please try again later."

def MSG_CREDITS_DEPLETED : String := "Service temporarily unavailable. Please try again later."

def MSG_PROCESSING_FAILED : String := "Unable to process resume. Please try again."

def MSG_UNAUTHORIZED : String := "Authentication required"

structure FlagJson where
  category : String
  severity : String
  description : String
deriving DecidableEq, Repr

structure DetailedJson where
  experience_consistency : String
  skills_alignment : String
  achievements_credibility : String
  overall_authenticity : String
deriving DecidableEq, Repr

structure AnalysisJson where
  credibility_score : Int
  risk_level : String
  summary : String
  flags : List FlagJson
  detailed_analysis : DetailedJson
deriving DecidableEq, Repr

/-- The fixed fallback analysis substituted when the model reply cannot be
parsed. -/
def fallbackAnalysis : AnalysisJson :=
  { credibility_score := 50
    risk_level := "medium"
    summary := "Unable to fully analyze the resume. The content may be incomplete or in an unusual format."
    flags := [{ category := "Analysis", severity := "low",
                description := "Resume format made full analysis difficult" }]
    detailed_analysis :=
      { experience_consistency := "Unable to assess"
        skills_alignment := "Unable to assess"
        achievements_credibility := "Unable to assess"
        overall_authenticity := "Requires manual review" } }

def lbraceChar : Char := '\x7b'

def rbraceChar : Char := '\x7d'

/-- `aiResponse.match(/\x7b[\s\S]*\x7d/)`: the substring from the first
opening brace through the last closing brace, when the latter lies strictly
after the former. -/
def extractJsonSpan (s : String) : Option String :=
  let l := s.data
  match l.findIdx? (fun c => c = lbraceChar) with
  | none => none
  | some i =>
    match l.reverse.findIdx? (fun c => c = rbraceChar) with
    | none => none
    | some jr =>
      let j := l.length - 1 - jr
      if i < j then some (String.mk ((l.drop i).take (j - i + 1))) else none

/-- Scan tracking the current run of consecutive ASCII letters; `true` as
soon as a run reaches ten. -/
def letterRunScan : List Char → Nat → Bool
  | [], _ => false
  | c :: rest, run =>
    if isAsciiLetter c then
      if 10 ≤ run + 1 then true else letterRunScan rest (run + 1)
    else letterRunScan rest 0

/-- `/[a-zA-Z]\x7b10,\x7d/.test s`: `s` contains at least ten consecutive
ASCII alphabetic characters. -/
def hasTenLetterRun (s : String) : Bool :=
  letterRunScan s.data 0

/-- The environment the handler runs against: whether the caller's token
verifies, whether the gateway API key is configured, and the gateway's
reply (HTTP status, the reply content `data.choices[0].message.content`,
and an abstraction of `JSON.parse` restricted to the required shape —
`none` when the extracted substring fails to parse). -/
structure ServeEnv where
  authed : Bool
  apiKeyConfigured : Bool
  upstreamStatus : Nat
  upstreamContent : String
  jsonParse : String → Option AnalysisJson

inductive RespBody
  | err (msg : String)
  | analysis (a : AnalysisJson)
deriving DecidableEq, Repr

structure ServeResponse where
  status : Nat
  body : RespBody
deriving DecidableEq, Repr

/-- The hardened `analyze-resume` handler: the returned flag records
whether the outbound call to the external scoring gateway was issued. -/
def serveAnalyzeResume (env : ServeEnv) (resumeText : Option String) :
    ServeResponse × Bool :=
  if !env.authed then (⟨401, RespBody.err MSG_UNAUTHORIZED⟩, false)
  else
    match resumeText with
    | none => (⟨400, RespBody.err MSG_INVALID_INPUT⟩, false)
    | some t =>
      if t = "" then (⟨400, RespBody.err MSG_INVALID_INPUT⟩, false)
      else
        let trimmedText := jsTrim t
        if trimmedText.length < 50 then
          (⟨400, RespBody.err MSG_INVALID_INPUT⟩, false)
        else if !hasTenLetterRun trimmedText then
          (⟨400, RespBody.err MSG_INVALID_INPUT⟩, false)
        else if !env.apiKeyConfigured then
          (⟨500, RespBody.err MSG_PROCESSING_FAILED⟩, false)
        else if !(200 ≤ env.upstreamStatus && env.upstreamStatus ≤ 299) then
          if env.upstreamStatus = 429 then
            (⟨429, RespBody.err MSG_RATE_LIMITED⟩, true)
          else if env.upstreamStatus = 402 then
            (⟨402, RespBody.err MSG_CREDITS_DEPLETED⟩, true)
          else (⟨500, RespBody.err MSG_PROCESSING_FAILED⟩, true)
        else
          let analysisResult :=
            match extractJsonSpan env.upstreamContent with
            | some sub => (env.jsonParse sub).getD fallbackAnalysis
            | none => fallbackAnalysis
          (⟨200, RespBody.analysis analysisResult⟩, true)

/-! ## Batch Orchestrator (`BulkResumeUpload`: `analyzeFile` /
`handleAnalyzeAll`) -/

inductive Status
  | pending
  | analyzing
  | complete
  | error
deriving DecidableEq, Repr

/-- The external calls a batch run can issue, in the order `analyzeFile`
performs them. -/
inductive CallKind
  | extractCall
  | resumeInsertCall
  | analysisInvokeCall
  | resultInsertCall
  | usageLogCall
  | notifyCall
deriving DecidableEq, Repr

/-- What the `analyze-resume` invocation hands back to the client, as the
client consumes it: either a thrown error (`analysisError` /
`analysisData.error`) or the analysis object. -/
structure AnalysisData where
  errField : Option String
  credibility_score : Int
  risk_level : String
  summary : String
  flagCount : Nat
deriving DecidableEq, Repr

/-- The per-file environment `analyzeFile` runs against: the extracted text
and the outcome of each external collaborator. The notification outcome is
present but, matching the source's `try/catch` that only logs, never
consulted for the result. -/
structure AnalyzeEnv where
  extractedText : String
  resumeInsert : Except String Unit
  invokeReply : Except String AnalysisData
  resultInsert : Except String Unit
  notify : Except String Unit

/-- `analyzeFile` (AnalysisHistory.tsx): extraction, minimum-length check,
resume insert, analysis invocation, result insert, usage log, and the
high-risk notification whose failure is swallowed. Returns the thrown
message or the result, together with the calls issued. -/
def analyzeFile (env : AnalyzeEnv) : Except String AnalysisData × List CallKind :=
  if env.extractedText.length < 50 then
    (Except.error "Could not extract enough text from this file",
      [CallKind.extractCall])
  else
    match env.resumeInsert with
    | Except.error e =>
      (Except.error e, [CallKind.extractCall, CallKind.resumeInsertCall])
    | Except.ok _ =>
      match env.invokeReply with
      | Except.error e =>
        (Except.error e,
          [CallKind.extractCall, CallKind.resumeInsertCall,
            CallKind.analysisInvokeCall])
      | Except.ok ad =>
        match ad.errField with
        | some e =>
          (Except.error e,
            [CallKind.extractCall, CallKind.resumeInsertCall,
              CallKind.analysisInvokeCall])
        | none =>
          match env.resultInsert with
          | Except.error e =>
            (Except.error e,
              [CallKind.extractCall, CallKind.resumeInsertCall,
                CallKind.analysisInvokeCall, CallKind.resultInsertCall])
          | Except.ok _ =>
            if ad.risk_level = "high" then
              (Except.ok ad,
                [CallKind.extractCall, CallKind.resumeInsertCall,
                  CallKind.analysisInvokeCall, CallKind.resultInsertCall,
                  CallKind.usageLogCall, CallKind.notifyCall])
            else
              (Except.ok ad,
                [CallKind.extractCall, CallKind.resumeInsertCall,
                  CallKind.analysisInvokeCall, CallKind.resultInsertCall,
                  CallKind.usageLogCall])

/-- A queued file at the start of a batch run: its current status, its
current error message, and the environment its processing would run
against. -/
structure BatchItem where
  status : Status
  errMsg : Option String
  env : AnalyzeEnv

/-- A file's observable state when the run ends. -/
structure FileOutcome where
  status : Status
  errMsg : Option String
deriving DecidableEq, Repr

/-- One iteration of the sequential loop for one queued file: non-pending
files are skipped; a pending file is moved to `analyzing` and then to
`complete` or `error`. Returns the final outcome, the calls issued, and the
sequence of status updates applied to this file. -/
def stepItem (it : BatchItem) : FileOutcome × List CallKind × List Status :=
  if it.status = Status.pending then
    match (analyzeFile it.env).1 with
    | Except.ok _ =>
      (⟨Status.complete, it.errMsg⟩, (analyzeFile it.env).2,
        [Status.analyzing, Status.complete])
    | Except.error m =>
      (⟨Status.error, some m⟩, (analyzeFile it.env).2,
        [Status.analyzing, Status.error])
  else (⟨it.status, it.errMsg⟩, [], [])

/-- The observable effect of one batch run: final per-file outcomes, the
external calls issued, and each file's status trace (its status at the
start of the run followed by every update the orchestrator applied). -/
structure BatchResult where
  outcomes : List FileOutcome
  calls : List CallKind
  traces : List (List Status)
deriving Repr

/-- The batch result when the run returns before processing any file:
everything is left as it was and no calls are issued. -/
def unchangedResult (items : List BatchItem) : BatchResult :=
  { outcomes := items.map (fun it => ⟨it.status, it.errMsg⟩)
    calls := []
    traces := items.map (fun it => [it.status]) }

/-- `handleAnalyzeAll`: returns without side effects when no file is
pending, when the pending count exceeds the remaining-quota count, or when
no session exists (the quota check precedes the session fetch); otherwise
processes the files strictly sequentially. -/
def handleAnalyzeAll (items : List BatchItem) (remainingAnalyses : Nat)
    (hasSession : Bool) : BatchResult :=
  let pendingCount := (items.filter (fun it => it.status = Status.pending)).length
  if pendingCount = 0 then unchangedResult items
  else if remainingAnalyses < pendingCount then unchangedResult items
  else if !hasSession then unchangedResult items
  else
    { outcomes := items.map (fun it => (stepItem it).1)
      calls := items.flatMap (fun it => (stepItem it).2.1)
      traces := items.map (fun it => it.status :: (stepItem it).2.2) }

/-- The per-file state machine of the orchestrator:
`pending → analyzing → complete | error`; terminal states admit no
transition. -/
def allowedTransition : Status → Status → Bool
  | Status.pending, Status.analyzing => true
  | Status.analyzing, Status.complete => true
  | Status.analyzing, Status.error => true
  | _, _ => false

/-! ## The combined batch pipeline: real extraction plus the hardened
handler (for the minimum-length claim) -/

/-- The client-visible outcome of `supabase.functions.invoke` on
`analyze-resume`: a non-2xx reply surfaces as a thrown invoke error, a 2xx
reply hands over the analysis body. The flag records whether the server
issued its outbound gateway call. -/
def invokeAnalyze (env : ServeEnv) (sent : String) :
    Except String AnalysisJson × Bool :=
  match serveAnalyzeResume env (some sent) with
  | (⟨st, RespBody.analysis a⟩, gw) =>
    if 200 ≤ st && st ≤ 299 then (Except.ok a, gw)
    else (Except.error "Edge Function returned a non-2xx status code", gw)
  | (⟨_, RespBody.err _⟩, gw) =>
    (Except.error "Edge Function returned a non-2xx status code", gw)

/-- Persistence-layer outcomes for one file of the combined pipeline. -/
structure PipelinePersist where
  resumeInsert : Except String Unit
  resultInsert : Except String Unit
  notify : Except String Unit

/-- `analyzeFile` with extraction and the analysis invocation instantiated:
the text comes from `extractTextFromFile` and the invocation runs the
hardened handler on the first 30,000 characters of the text. Returns the
result, the calls issued, and whether the outbound gateway call happened. -/
def analyzeFilePipeline (f : RFile) (p : PipelinePersist) (u : ServeEnv) :
    Except String AnalysisJson × List CallKind × Bool :=
  let text := extractTextFromFile f
  if text.length < 50 then
    (Except.error "Could not extract enough text from this file",
      [CallKind.extractCall], false)
  else
    match p.resumeInsert with
    | Except.error e =>
      (Except.error e, [CallKind.extractCall, CallKind.resumeInsertCall], false)
    | Except.ok _ =>
      match invokeAnalyze u (strTake 30000 text) with
      | (Except.error e, gw) =>
        (Except.error e,
          [CallKind.extractCall, CallKind.resumeInsertCall,
            CallKind.analysisInvokeCall], gw)
      | (Except.ok a, gw) =>
        match p.resultInsert with
        | Except.error e =>
          (Except.error e,
            [CallKind.extractCall, CallKind.resumeInsertCall,
              CallKind.analysisInvokeCall, CallKind.resultInsertCall], gw)
        | Except.ok _ =>
          if a.risk_level = "high" then
            (Except.ok a,
              [CallKind.extractCall, CallKind.resumeInsertCall,
                CallKind.analysisInvokeCall, CallKind.resultInsertCall,
                CallKind.usageLogCall, CallKind.notifyCall], gw)
          else
            (Except.ok a,
              [CallKind.extractCall, CallKind.resumeInsertCall,
                CallKind.analysisInvokeCall, CallKind.resultInsertCall,
                CallKind.usageLogCall], gw)

/-! ## Helper lemmas -/

theorem dqChars_collapse (l : List Char) :
    collapseDoubledQuotes (dqChars l) = l := by
  induction l with
  | nil => simp [dqChars, collapseDoubledQuotes]
  | cons c t ih =>
    by_cases hc : c = '"'
    · subst hc
      simp [dqChars, collapseDoubledQuotes, ih]
    · rw [dqChars, if_neg hc]
      cases ht : dqChars t with
      | nil =>
        cases t with
        | nil => simp [collapseDoubledQuotes]
        | cons d u =>
          exfalso
          revert ht
          rw [dqChars]
          split <;> simp
      | cons d ds =>
        rw [collapseDoubledQuotes]
        rw [if_neg (by simp [hc]), ← ht, ih]

theorem head?_ne_quote_of_not_contains (l : List Char)
    (h : l.contains '"' = false) : l.head? ≠ some '"' := by
  cases l with
  | nil => simp
  | cons c t =>
    simp only [List.head?_cons, ne_eq, Option.some.injEq]
    intro hc
    subst hc
    rw [show (('"' :: t).contains '"') = true from
      List.elem_iff.mpr (List.mem_cons_self _ _)] at h
    simp at h

/-- C9: `escapeCSV` wraps a field in double quotes with embedded quotes
doubled exactly when the field contains a comma, a newline, or a double
quote, and returns it unchanged otherwise; every field round-trips through
standard CSV unquoting, and the string `He said, "hi"` serializes to
`"He said, ""hi"""` and parses back to the original. -/
theorem claim_C9_escapeCSV (s : String) :
    csvUnquote (escapeCSV s) = s ∧
    (needsQuoting s = false → escapeCSV s = s) ∧
    (needsQuoting s = true → escapeCSV s = "\"" ++ doubleQuotes s ++ "\"") ∧
    escapeCSV "He said, \"hi\"" = "\"He said, \"\"hi\"\"\"" ∧
    csvUnquote "\"He said, \"\"hi\"\"\"" = "He said, \"hi\"" := by
  refine ⟨?_, ?_, ?_, by decide, by decide⟩
  · by_cases h : needsQuoting s
    · rw [escapeCSV, if_pos h]
      have hdata : ("\"" ++ doubleQuotes s ++ "\"").data =
          '"' :: (dqChars s.data ++ ['"']) := by
        simp [String.data_append, doubleQuotes]
      have hcond : 2 ≤ ("\"" ++ doubleQuotes s ++ "\"").data.length ∧
          ("\"" ++ doubleQuotes s ++ "\"").data.head? = some '"' ∧
          ("\"" ++ doubleQuotes s ++ "\"").data.getLast? = some '"' := by
        refine ⟨by simp [hdata], by simp [hdata], ?_⟩
        rw [hdata, show ('"' :: (dqChars s.data ++ ['"'])) =
          ('"' :: dqChars s.data) ++ ['"'] from by simp]
        exact List.getLast?_concat _
      simp only [csvUnquote]
      rw [if_pos hcond, hdata]
      have hbody : (('"' :: (dqChars s.data ++ ['"'])).drop 1).dropLast =
          dqChars s.data := by
        simp [List.dropLast_concat]
      rw [hbody, dqChars_collapse]
    · rw [escapeCSV, if_neg h]
      have h' : s.data.contains '"' = false := by
        cases hq : s.data.contains '"' with
        | false => rfl
        | true =>
          exact absurd (show needsQuoting s = true by
            unfold needsQuoting; rw [hq]; simp) h
      simp only [csvUnquote]
      rw [if_neg]
      rintro ⟨-, hh, -⟩
      exact head?_ne_quote_of_not_contains s.data h' hh
  · intro h
    rw [escapeCSV, if_neg (by simp [h])]
  · intro h
    rw [escapeCSV, if_pos h]

/-- Witness for C9 at concrete fields: the quoted example round-trips and a
plain field is returned unchanged. -/
theorem claim_C9_witness :
    csvUnquote (escapeCSV "He said, \"hi\"") = "He said, \"hi\"" ∧
    escapeCSV "plain text" = "plain text" :=
  ⟨(claim_C9_escapeCSV "He said, \"hi\"").1,
   (claim_C9_escapeCSV "plain text").2.1 (by decide)⟩

/-- C7: the score-band mapping is deterministic with fixed thresholds —
both UI copies of `getScoreColor` agree, the color they pick corresponds
exactly to the spec's band (≥80 low, 50–79 medium, <50 high), and the five
named sample scores land in the stated bands. (No server-side re-validation
of the band exists in the repository, so UI consistency is the whole
content of the claim.) -/
theorem claim_C7_score_band (s : Int) (h0 : 0 ≤ s) (h1 : s ≤ 100) :
    getScoreColor s = getScoreColorHistory s ∧
    (getScoreColor s = "text-green-600" ↔ specScoreBand s = "low") ∧
    (getScoreColor s = "text-yellow-600" ↔ specScoreBand s = "medium") ∧
    (getScoreColor s = "text-red-600" ↔ specScoreBand s = "high") ∧
    specScoreBand 80 = "low" ∧ specScoreBand 79 = "medium" ∧
    specScoreBand 50 = "medium" ∧ specScoreBand 49 = "high" ∧
    specScoreBand 0 = "high" := by
  unfold getScoreColor getScoreColorHistory specScoreBand
  refine ⟨rfl, ?_, ?_, ?_, by norm_num, by norm_num, by norm_num,
    by norm_num, by norm_num⟩ <;>
  · split_ifs <;> simp_all <;> omega

/-- Witness for C7 at score 80: the boundary score belongs to the low-risk
band. -/
theorem claim_C7_witness : specScoreBand 80 = "low" :=
  (claim_C7_score_band 80 (by norm_num) (by norm_num)).2.2.2.2.1

/-- C8: the text extractor is total by construction (a Lean `def` returning
`String`, never an exception); plain-text input passes through unchanged,
and for every other input whose cleaned (and, for short PDF inputs,
fallback-rescanned) text is empty, the fixed sentinel string is returned —
so the extractor never returns an empty string on the cleaning path. -/
theorem claim_C8_extractor_total (f : RFile) :
    (f.ftype = FType.textPlain → extractTextFromFile f = f.content) ∧
    (f.ftype ≠ FType.textPlain →
      (finalText f = "" → extractTextFromFile f = sentinelText) ∧
      extractTextFromFile f ≠ "") := by
  unfold extractTextFromFile
  constructor
  · intro h
    simp [h]
  · intro h
    constructor
    · intro h2
      simp [h, h2]
    · by_cases h2 : finalText f = "" <;> simp [h, h2, sentinelText]

/-- Witness for C8: an empty PDF cleans to the empty string and the
extractor returns the sentinel. -/
theorem claim_C8_witness :
    extractTextFromFile ⟨FType.pdf, ""⟩ = sentinelText :=
  ((claim_C8_extractor_total ⟨FType.pdf, ""⟩).2 (by decide)).1 (by decide)

/-- C10: the hardened endpoint rejects, with the same generic invalid-input
error and without any outbound gateway call, any authenticated request
whose trimmed resume text lacks a run of ten consecutive ASCII letters,
even when its trimmed length is at least 50. -/
theorem claim_C10_readable_content (env : ServeEnv) (t : String)
    (hauth : env.authed = true) (ht : t ≠ "")
    (hlen : 50 ≤ (jsTrim t).length)
    (hrun : hasTenLetterRun (jsTrim t) = false) :
    serveAnalyzeResume env (some t) =
      (⟨400, RespBody.err MSG_INVALID_INPUT⟩, false) := by
  unfold serveAnalyzeResume
  simp [hauth, ht, hrun, show ¬((jsTrim t).length < 50) from by omega]

/-- Witness for C10: sixty characters of alternating letters and spaces
pass the length check but fail the ten-letter-run check. -/
theorem claim_C10_witness :
    serveAnalyzeResume ⟨true, true, 200, "", fun _ => none⟩
        (some (String.intercalate " " (List.replicate 30 "a"))) =
      (⟨400, RespBody.err MSG_INVALID_INPUT⟩, false) :=
  claim_C10_readable_content ⟨true, true, 200, "", fun _ => none⟩
    (String.intercalate " " (List.replicate 30 "a"))
    rfl (by decide) (by decide) (by decide)

/-- C5: whenever the upstream model reply's content is not parseable as
JSON — no JSON object substring is found, or the extracted substring fails
to parse — the handler does not fail: it returns HTTP 200 with exactly the
fixed fallback result (score 50, risk `medium`, the generic summary, one
low-severity `Analysis` flag, and the fixed placeholder texts for the four
sub-assessments). -/
theorem claim_C5_parse_fallback (env : ServeEnv) (t : String)
    (hauth : env.authed = true) (hkey : env.apiKeyConfigured = true)
    (hup : 200 ≤ env.upstreamStatus ∧ env.upstreamStatus ≤ 299)
    (ht : t ≠ "") (hlen : 50 ≤ (jsTrim t).length)
    (hrun : hasTenLetterRun (jsTrim t) = true)
    (hparse : extractJsonSpan env.upstreamContent = none ∨
      ∃ sub, extractJsonSpan env.upstreamContent = some sub ∧
        env.jsonParse sub = none) :
    serveAnalyzeResume env (some t) =
      (⟨200, RespBody.analysis fallbackAnalysis⟩, true) ∧
    fallbackAnalysis.credibility_score = 50 ∧
    fallbackAnalysis.risk_level = "medium" ∧
    fallbackAnalysis.summary =
      "Unable to fully analyze the resume. The content may be incomplete or in an unusual format." ∧
    fallbackAnalysis.flags =
      [⟨"Analysis", "low", "Resume format made full analysis difficult"⟩] ∧
    fallbackAnalysis.detailed_analysis =
      ⟨"Unable to assess", "Unable to assess", "Unable to assess",
        "Requires manual review"⟩ := by
  refine ⟨?_, rfl, rfl, rfl, rfl, rfl⟩
  unfold serveAnalyzeResume
  simp [hauth, hkey, hrun, ht, show ¬((jsTrim t).length < 50) from by omega,
    show (200 ≤ env.upstreamStatus && env.upstreamStatus ≤ 299) = true from by
      simp [hup.1, hup.2]]
  rcases hparse with hnone | ⟨sub, hsub, hp⟩
  · simp [hnone]
  · simp [hsub, hp]

/-- Witness for C5: a reply with no brace at all yields the fallback. -/
theorem claim_C5_witness :
    serveAnalyzeResume ⟨true, true, 200, "the model rambled with no JSON",
        fun _ => none⟩
      (some (String.mk (List.replicate 60 'a'))) =
      (⟨200, RespBody.analysis fallbackAnalysis⟩, true) :=
  (claim_C5_parse_fallback
    ⟨true, true, 200, "the model rambled with no JSON", fun _ => none⟩
    (String.mk (List.replicate 60 'a'))
    rfl rfl (by decide) (by decide) (by decide) (by decide)
    (Or.inl (by decide))).1

/-- C6: when a file's analysis result has risk level `high` and the result
was persisted, `analyzeFile` invokes the notification dispatcher; the
notification outcome — success or failure — never changes the returned
result, and in a batch run the file still ends in status `complete`. -/
theorem claim_C6_high_risk_notify (env : AnalyzeEnv) (ad : AnalysisData)
    (hlen : 50 ≤ env.extractedText.length)
    (hres : env.resumeInsert = Except.ok ())
    (hinv : env.invokeReply = Except.ok ad)
    (herr : ad.errField = none)
    (hrisk : ad.risk_level = "high")
    (hins : env.resultInsert = Except.ok ()) :
    CallKind.notifyCall ∈ (analyzeFile env).2 ∧
    (analyzeFile env).1 = Except.ok ad ∧
    (∀ n, analyzeFile { env with notify := n } = analyzeFile env) ∧
    (stepItem ⟨Status.pending, none, env⟩).1 = ⟨Status.complete, none⟩ := by
  have hmain : analyzeFile env =
      (Except.ok ad,
        [CallKind.extractCall, CallKind.resumeInsertCall,
          CallKind.analysisInvokeCall, CallKind.resultInsertCall,
          CallKind.usageLogCall, CallKind.notifyCall]) := by
    unfold analyzeFile
    simp [hres, hinv, herr, hrisk, hins,
      show ¬(env.extractedText.length < 50) from by omega]
  refine ⟨by simp [hmain], by simp [hmain], fun n => rfl, ?_⟩
  simp [stepItem, hmain]

/-- Witness for C6: a high-risk result whose notification call fails still
yields a successful analysis and a `complete` batch status. -/
theorem claim_C6_witness :
    (analyzeFile ⟨String.mk (List.replicate 60 'a'), Except.ok (),
        Except.ok ⟨none, 20, "high", "bad resume", 3⟩, Except.ok (),
        Except.error "email provider down"⟩).1 =
      Except.ok ⟨none, 20, "high", "bad resume", 3⟩ :=
  (claim_C6_high_risk_notify
    ⟨String.mk (List.replicate 60 'a'), Except.ok (),
      Except.ok ⟨none, 20, "high", "bad resume", 3⟩, Except.ok (),
      Except.error "email provider down"⟩
    ⟨none, 20, "high", "bad resume", 3⟩
    (by decide) rfl rfl rfl rfl rfl).2.1

/-- C2: when the remaining-quota count is strictly below the number of
pending files, `handleAnalyzeAll` rejects the whole batch before starting
any item: no extraction, analysis, or persistence call is issued, and every
file keeps its status (in particular every pending file stays pending). -/
theorem claim_C2_quota_rejects (items : List BatchItem) (r : Nat)
    (hs : Bool)
    (h : r < (items.filter (fun it => it.status = Status.pending)).length) :
    handleAnalyzeAll items r hs = unchangedResult items ∧
    (handleAnalyzeAll items r hs).calls = [] ∧
    (handleAnalyzeAll items r hs).outcomes =
      items.map (fun it => ⟨it.status, it.errMsg⟩) := by
  have hmain : handleAnalyzeAll items r hs = unchangedResult items := by
    unfold handleAnalyzeAll
    have h0 :
        ¬((items.filter (fun it => it.status = Status.pending)).length = 0) := by
      omega
    simp [h0, h]
  exact ⟨hmain, by simp [hmain, unchangedResult], by simp [hmain, unchangedResult]⟩

/-- A pending item with a trivially successful environment, used by the
batch witnesses. -/
def okEnvW : AnalyzeEnv :=
  ⟨String.mk (List.replicate 60 'a'), Except.ok (),
    Except.ok ⟨none, 85, "low", "looks genuine", 0⟩, Except.ok (), Except.ok ()⟩

/-- An environment whose persistence step fails, used by the batch
witnesses. -/
def failEnvW : AnalyzeEnv :=
  ⟨String.mk (List.replicate 60 'a'), Except.error "db down",
    Except.ok ⟨none, 85, "low", "looks genuine", 0⟩, Except.ok (), Except.ok ()⟩

/-- Witness for C2: two pending files against a remaining quota of one
leave the batch untouched with zero calls. -/
theorem claim_C2_witness :
    handleAnalyzeAll [⟨Status.pending, none, okEnvW⟩,
        ⟨Status.pending, none, okEnvW⟩] 1 true =
      unchangedResult [⟨Status.pending, none, okEnvW⟩,
        ⟨Status.pending, none, okEnvW⟩] :=
  (claim_C2_quota_rejects [⟨Status.pending, none, okEnvW⟩,
    ⟨Status.pending, none, okEnvW⟩] 1 true (by decide)).1

/-- C3: every status update the orchestrator performs in one batch run
follows the per-file state machine `pending → analyzing → complete | error`;
in particular a file that has reached a terminal state is never moved
again. -/
theorem claim_C3_status_machine (items : List BatchItem) (r : Nat)
    (hs : Bool) :
    ∀ tr ∈ (handleAnalyzeAll items r hs).traces,
      List.Chain' (fun a b => allowedTransition a b = true) tr := by
  intro tr htr
  have key : (handleAnalyzeAll items r hs).traces =
      items.map (fun it => [it.status]) ∨
      (handleAnalyzeAll items r hs).traces =
        items.map (fun it => it.status :: (stepItem it).2.2) := by
    simp only [handleAnalyzeAll, unchangedResult]
    split
    · exact Or.inl rfl
    · split
      · exact Or.inl rfl
      · split
        · exact Or.inl rfl
        · exact Or.inr rfl
  rcases key with hk | hk <;> rw [hk] at htr <;>
    simp only [List.mem_map] at htr <;> obtain ⟨it, -, rfl⟩ := htr
  · simp
  · by_cases hp : it.status = Status.pending
    · rcases hres : (analyzeFile it.env).1 with m | a <;>
        simp [stepItem, hp, hres, allowedTransition]
    · simp [stepItem, hp]

/-- Witness for C3: the trace of a successfully processed file inside a
concrete batch run is a path of the state machine. -/
theorem claim_C3_witness :
    List.Chain' (fun a b => allowedTransition a b = true)
      [Status.pending, Status.analyzing, Status.complete] :=
  claim_C3_status_machine [⟨Status.pending, none, okEnvW⟩] 5 true
    [Status.pending, Status.analyzing, Status.complete] (by decide)

theorem countP_eq_one_of_unique {α : Type} (p : α → Bool) :
    ∀ (l : List α) (k : Nat), (hk : k < l.length) → p l[k] = true →
      (∀ j, (hj : j < l.length) → j ≠ k → p l[j] = false) →
      l.countP p = 1 := by
  intro l
  induction l with
  | nil => intro k hk; simp at hk
  | cons a t ih =>
    intro k hk hpk hothers
    rcases k with - | k'
    · have hz : t.countP p = 0 := by
        rw [List.countP_eq_zero]
        intro x hx
        obtain ⟨j, hj, rfl⟩ := List.mem_iff_getElem.mp hx
        have := hothers (j + 1) (by simpa using Nat.succ_lt_succ hj)
          (Nat.succ_ne_zero j)
        simp only [List.getElem_cons_succ] at this
        simp [this]
      simp only [List.countP_cons]
      simp only [List.getElem_cons_zero] at hpk
      simp [hz, hpk]
    · have hpa : p a = false :=
        hothers 0 (by simp) (by omega)
      have hone : t.countP p = 1 := by
        apply ih k' (by simpa using Nat.lt_of_succ_lt_succ hk)
        · simpa using hpk
        · intro j hj hne
          have := hothers (j + 1) (by simpa using Nat.succ_lt_succ hj)
            (by omega)
          simpa using this
      simp [List.countP_cons, hone, hpa]

/-- C1: in a batch of pending files within quota where exactly item `k`
fails at some pipeline step and every other item succeeds, the run ends
with item `k` in status `error` carrying the failing step's message, every
other item in status `complete`, and exactly one `error` among the
outcomes — the batch is not aborted. -/
theorem claim_C1_partial_failure (items : List BatchItem) (r : Nat)
    (k : Nat) (m : String)
    (hall : ∀ it ∈ items, it.status = Status.pending)
    (hquota : items.length ≤ r)
    (hk : k < items.length)
    (hfail : (analyzeFile items[k].env).1 = Except.error m)
    (hok : ∀ j, (hj : j < items.length) → j ≠ k →
      ∃ ad, (analyzeFile items[j].env).1 = Except.ok ad) :
    (handleAnalyzeAll items r true).outcomes[k]? =
      some ⟨Status.error, some m⟩ ∧
    (∀ j, (hj : j < items.length) → j ≠ k →
      (handleAnalyzeAll items r true).outcomes[j]? =
        some ⟨Status.complete, items[j].errMsg⟩) ∧
    (handleAnalyzeAll items r true).outcomes.countP
      (fun o => o.status = Status.error) = 1 := by
  have hfilter : items.filter (fun it => it.status = Status.pending) = items :=
    List.filter_eq_self.mpr (fun it hit => by simp [hall it hit])
  have hbranch : handleAnalyzeAll items r true =
      { outcomes := items.map (fun it => (stepItem it).1)
        calls := items.flatMap (fun it => (stepItem it).2.1)
        traces := items.map (fun it => it.status :: (stepItem it).2.2) } := by
    simp only [handleAnalyzeAll, hfilter]
    rw [if_neg (by omega), if_neg (by omega)]
    simp
  have hstepk : (stepItem items[k]).1 = ⟨Status.error, some m⟩ := by
    have hp : items[k].status = Status.pending :=
      hall items[k] (items.getElem_mem hk)
    simp [stepItem, hp, hfail]
  have hstepj : ∀ j, (hj : j < items.length) → j ≠ k →
      (stepItem items[j]).1 = ⟨Status.complete, items[j].errMsg⟩ := by
    intro j hj hne
    obtain ⟨ad, had⟩ := hok j hj hne
    have hp : items[j].status = Status.pending :=
      hall items[j] (items.getElem_mem hj)
    simp [stepItem, hp, had]
  refine ⟨?_, ?_, ?_⟩
  · rw [hbranch]
    simp only [List.getElem?_map, List.getElem?_eq_getElem hk]
    simp [hstepk]
  · intro j hj hne
    rw [hbranch]
    simp only [List.getElem?_map, List.getElem?_eq_getElem hj]
    simp [hstepj j hj hne]
  · rw [hbranch]
    simp only [List.countP_map]
    apply countP_eq_one_of_unique _ items k hk
    · simp [Function.comp, hstepk]
    · intro j hj hne
      simp [Function.comp, hstepj j hj hne]

/-- Witness for C1: in a three-file batch whose middle file fails at the
persistence step, the middle file errors with the persistence message and
the other two complete. -/
theorem claim_C1_witness :
    (handleAnalyzeAll [⟨Status.pending, none, okEnvW⟩,
        ⟨Status.pending, none, failEnvW⟩,
        ⟨Status.pending, none, okEnvW⟩] 3 true).outcomes[1]? =
      some ⟨Status.error, some "db down"⟩ ∧
    (handleAnalyzeAll [⟨Status.pending, none, okEnvW⟩,
        ⟨Status.pending, none, failEnvW⟩,
        ⟨Status.pending, none, okEnvW⟩] 3 true).outcomes.countP
      (fun o => o.status = Status.error) = 1 := by
  have h := claim_C1_partial_failure
    [⟨Status.pending, none, okEnvW⟩, ⟨Status.pending, none, failEnvW⟩,
      ⟨Status.pending, none, okEnvW⟩] 3 1 "db down"
    (by intro it hit; fin_cases hit <;> rfl)
    (by norm_num) (by norm_num)
    rfl
    (by
      intro j hj hne
      have hj3 : j < 3 := by simpa using hj
      interval_cases j
      · exact ⟨⟨none, 85, "low", "looks genuine", 0⟩, rfl⟩
      · exact absurd rfl hne
      · exact ⟨⟨none, 85, "low", "looks genuine", 0⟩, rfl⟩)
  exact ⟨h.1, h.2.2⟩

theorem dropWhile_length_le_cons (p : Char → Bool) (c : Char)
    (t : List Char) :
    (t.dropWhile p).length ≤ ((c :: t).dropWhile p).length := by
  rw [List.dropWhile_cons]
  split
  · exact le_refl _
  · calc (t.dropWhile p).length ≤ t.length :=
        (List.dropWhile_sublist p).length_le
      _ ≤ (c :: t).length := by simp

theorem dropWhile_drop_length_le (p : Char → Bool) :
    ∀ (l : List Char) (j : Nat),
      ((l.drop j).dropWhile p).length ≤ (l.dropWhile p).length := by
  intro l
  induction l with
  | nil => intro j; simp
  | cons c t ih =>
    intro j
    cases j with
    | zero => simp
    | succ j' =>
      simp only [List.drop_succ_cons]
      calc ((t.drop j').dropWhile p).length ≤ (t.dropWhile p).length := ih j'
        _ ≤ ((c :: t).dropWhile p).length := dropWhile_length_le_cons p c t

theorem dropWhile_take (p : Char → Bool) :
    ∀ (l : List Char) (n : Nat),
      ∃ m, (l.take n).dropWhile p = (l.dropWhile p).take m := by
  intro l
  induction l with
  | nil => intro n; exact ⟨0, by simp⟩
  | cons c t ih =>
    intro n
    cases n with
    | zero => exact ⟨0, by simp⟩
    | succ n' =>
      by_cases hc : p c
      · obtain ⟨m, hm⟩ := ih n'
        exact ⟨m, by simp [List.dropWhile_cons, hc, hm]⟩
      · exact ⟨n' + 1, by simp [List.dropWhile_cons, hc]⟩

theorem trimChars_take_length_le (l : List Char) (n : Nat) :
    (trimChars (l.take n)).length ≤ (trimChars l).length := by
  unfold trimChars
  obtain ⟨m, hm⟩ := dropWhile_take isJsWs l n
  rw [hm]
  simp only [List.length_reverse]
  rw [List.reverse_take]
  exact dropWhile_drop_length_le isJsWs _ _

theorem jsTrim_strTake_length_le (n : Nat) (s : String) :
    (jsTrim (strTake n s)).length ≤ (jsTrim s).length := by
  simpa [jsTrim, strTake, String.length] using
    trimChars_take_length_le s.data n

theorem serve_short_no_gateway (u : ServeEnv) (t : String)
    (h : (jsTrim t).length < 50) :
    (serveAnalyzeResume u (some t)).2 = false := by
  unfold serveAnalyzeResume
  by_cases ha : u.authed
  · by_cases ht : t = "" <;> simp [ha, ht, h]
  · simp [ha]

theorem invokeAnalyze_gateway (u : ServeEnv) (sent : String) :
    (invokeAnalyze u sent).2 = (serveAnalyzeResume u (some sent)).2 := by
  unfold invokeAnalyze
  rcases hres : serveAnalyzeResume u (some sent) with ⟨⟨st, body⟩, gw⟩
  cases body <;> simp [apply_ite]

/-- C4 (amended): for every input file whose trimmed extracted text is
shorter than 50 characters, the combined batch pipeline never issues the
outbound call to the external scoring gateway; and whenever the raw
(untrimmed) extracted text is itself shorter than 50 characters — the
check the client actually performs — the pipeline rejects locally with the
insufficient-content error before any write, issuing no call beyond
extraction. -/
theorem claim_C4_amended (f : RFile) (p : PipelinePersist) (u : ServeEnv)
    (htrim : (jsTrim (extractTextFromFile f)).length < 50) :
    (analyzeFilePipeline f p u).2.2 = false ∧
    ((extractTextFromFile f).length < 50 →
      analyzeFilePipeline f p u =
        (Except.error "Could not extract enough text from this file",
          [CallKind.extractCall], false)) := by
  have hg : (invokeAnalyze u (strTake 30000 (extractTextFromFile f))).2 =
      false := by
    rw [invokeAnalyze_gateway]
    exact serve_short_no_gateway u _
      (lt_of_le_of_lt (jsTrim_strTake_length_le 30000 _) htrim)
  constructor
  · unfold analyzeFilePipeline
    by_cases hlen : (extractTextFromFile f).length < 50
    · simp [hlen]
    · simp only [if_neg hlen]
      rcases hri : p.resumeInsert with e | u1
      · simp [hri]
      · simp only [hri]
        rcases hinv : invokeAnalyze u (strTake 30000 (extractTextFromFile f))
          with ⟨r, gw⟩
        have hgw : gw = false := by rw [← hg, hinv]
        subst hgw
        rcases r with e2 | a
        · simp [hinv]
        · rcases hres2 : p.resultInsert with e3 | u2
          · simp [hinv, hres2]
          · by_cases hr : a.risk_level = "high" <;> simp [hinv, hres2, hr]
  · intro hlen
    unfold analyzeFilePipeline
    simp [hlen]

/-- The whitespace-only plain-text file driving the C4 counterexample:
sixty spaces. -/
def wsFile : RFile := ⟨FType.textPlain, String.mk (List.replicate 60 ' ')⟩

def okPersistW : PipelinePersist := ⟨Except.ok (), Except.ok (), Except.ok ()⟩

def plainServeEnvW : ServeEnv := ⟨true, true, 200, "", fun _ => none⟩

/-- Counterexample to C4 as stated: a plain-text file of sixty spaces has a
trimmed extracted text of length 0 < 50, yet the batch path persists a
resume record — the client's length check uses the untrimmed length (60),
so persistence happens before the analysis step rejects. -/
theorem claim_C4_counterexample :
    (jsTrim (extractTextFromFile wsFile)).length < 50 ∧
    CallKind.resumeInsertCall ∈
      (analyzeFilePipeline wsFile okPersistW plainServeEnvW).2.1 := by
  constructor
  · decide
  · decide

/-- Witness for the amended C4: even on the whitespace-padded file, the
outbound gateway call is never issued. -/
theorem claim_C4_witness :
    (analyzeFilePipeline wsFile okPersistW plainServeEnvW).2.2 = false :=
  (claim_C4_amended wsFile okPersistW plainServeEnvW (by decide)).1
